import Mathlib

/-!
Verification of the statistics-aggregation and construction layer of the
qri dataset streaming codec (package `dsio/stats`, file `stats.go`, plus the
format dispatcher contract exercised by `dsio` tests).

Modelling conventions, stated once:

* Go `interface{}` values flowing through the codec are the closed set of
  JSON-decodable kinds the source type-switches over: `nil`, `bool`, `int`,
  `float32`, `float64`, `string`, `[]interface{}`, `map[string]interface{}`.
  They are embedded as the inductive type `Val` below.  A Go map is embedded
  as an association list of its key/value pairs; since every statistics
  operation treats distinct keys independently, the iteration order of a Go
  map does not affect any result stated here, and the list order stands in
  for it.
* Go `float64` / `float32` are embedded as exact rationals (`Rat`).  The only
  floating-point operations the source performs on them are comparison
  (exact on floats, exact on rationals) and widening conversions
  (`float32`→`float64` is exact; `int`→`float64` is exact for all magnitudes
  the statistics sentinels and every claim touch).
* Go `int` is a 64-bit two's-complement integer; increments are embedded as
  `wrap64 (n + 1)` so that overflow behaves as in Go.
* Go `len(str)` counts bytes of the UTF-8 encoding; it is embedded as
  `String.utf8ByteSize`.
* A Go method call on a nil interface value panics.  Operations that can hit
  that path return an `Option`, with `none` embedding the runtime fault.
-/

/-- Embedding of the closed set of runtime value kinds the source
type-switches over (`newStatGenerator`, the `AddEntry` methods). -/
inductive Val where
  | vnull : Val
  | vbool (b : Bool) : Val
  | vint (n : Int) : Val
  | vfloat32 (x : Rat) : Val
  | vfloat64 (x : Rat) : Val
  | vstring (s : String) : Val
  | varr (xs : List Val) : Val
  | vobj (fs : List (String × Val)) : Val

/-- Embedding of the statistics-node states: one constructor per concrete
`statGenerator` implementation in `stats.go`, with exactly its Go struct
fields. -/
inductive StatGen where
  | nullGen (count : Int) : StatGen
  | numericGen (typ : String) (count : Int) (min max : Rat) : StatGen
  | stringGen (count minLength maxLength : Int) : StatGen
  | boolGen (count trueCount falseCount : Int) : StatGen
  | objectGen (children : List (String × StatGen)) : StatGen
  | arrayGen (children : List StatGen) : StatGen

/-- Embedding of the values appearing in the `interface{}` trees returned by
the `Stats()` methods: Go `int` fields, Go `float64` fields, nested maps and
slices. -/
inductive SVal where
  | sInt (n : Int) : SVal
  | sFloat (x : Rat) : SVal
  | sMap (fields : List (String × SVal)) : SVal
  | sArr (xs : List SVal) : SVal

/-- Go 64-bit two's-complement wraparound, applied after every `int`
arithmetic step. -/
def wrap64 (n : Int) : Int := (n + 2 ^ 63) % 2 ^ 64 - 2 ^ 63

/-- Source `const maxInt = int(maxUint >> 1)` (stats.go line 155). -/
def maxInt : Int := 2 ^ 63 - 1

/-- Source `const minInt = -maxInt - 1` (stats.go line 156). -/
def minInt : Int := -(2 ^ 63)

/-- The value of the Go conversion `float64(maxInt)`: the nearest binary64
float to 2^63 - 1 is exactly 2^63. -/
def maxIntF : Rat := 2 ^ 63

/-- The value of the Go conversion `float64(minInt)`: -2^63 is exactly
representable in binary64. -/
def minIntF : Rat := -(2 ^ 63)

/-- Embedding of `dsio.Entry`: index within an array container, key within an
object container, and the value. -/
structure Entry where
  Index : Int
  Key : String
  Value : Val

/-- Embedding of the part of `dataset.Structure` the claims touch: the data
format string and the schema value (`none` embeds a nil schema). -/
structure Structure where
  Format : String
  Schema : Option Val

/-- Source `dataset.BaseSchemaArray`: the minimal schema declaring an
array-typed top level. -/
def BaseSchemaArray : Val := .vobj [("type", .vstring "array")]

/-- Source `dataset.BaseSchemaObject`: the minimal schema declaring an
object-typed top level. -/
def BaseSchemaObject : Val := .vobj [("type", .vstring "object")]

/-- Embedding of `newStatGenerator` (stats.go lines 70-87): selects the node
variant from the runtime type of the seeding value.  The Go `default` branch
(nullStatGenerator) is reached exactly by `nil` within the closed value
set. -/
def newStatGenerator : Val → StatGen
  | .vfloat64 _ => .numericGen "number" 0 maxIntF minIntF
  | .vfloat32 _ => .numericGen "number" 0 maxIntF minIntF
  | .vint _ => .numericGen "integer" 0 maxIntF minIntF
  | .vstring _ => .stringGen 0 maxInt minInt
  | .vbool _ => .boolGen 0 0 0
  | .vobj _ => .objectGen []
  | .varr _ => .arrayGen []
  | .vnull => .nullGen 0

mutual

/-- Embedding of the `AddEntry` methods of every node variant, dispatching on
the node state and the observed value.  Each `AddEntry` in the source reads
only `e.Value`, so the worker takes the value alone.  Branches, in source
order per variant: `objectStatGenerator.AddEntry` (lines 93-102),
`arrayStatGenerator.AddEntry` (lines 125-134), `numericStatGenerator.AddEntry`
(lines 164-184), `stringStatGenerator.AddEntry` (lines 207-217),
`boolStatGenerator.AddEntry` (lines 242-250), `nullStatGenerator.AddEntry`
(lines 270-274).  A value whose runtime type escapes the variant's
type-switch leaves the node unchanged. -/
def addValue : StatGen → Val → StatGen
  | .objectGen cs, .vobj fs => .objectGen (addObjFields cs fs)
  | .arrayGen cs, .varr xs => .arrayGen (addArrElems cs xs)
  | .numericGen t c mn mx, .vint n =>
      .numericGen t (wrap64 (c + 1)) (if (n : Rat) < mn then (n : Rat) else mn)
        (if (n : Rat) > mx then (n : Rat) else mx)
  | .numericGen t c mn mx, .vfloat32 x =>
      .numericGen t (wrap64 (c + 1)) (if x < mn then x else mn) (if x > mx then x else mx)
  | .numericGen t c mn mx, .vfloat64 x =>
      .numericGen t (wrap64 (c + 1)) (if x < mn then x else mn) (if x > mx then x else mx)
  | .stringGen c mnl mxl, .vstring s =>
      .stringGen (wrap64 (c + 1))
        (if (s.utf8ByteSize : Int) < mnl then (s.utf8ByteSize : Int) else mnl)
        (if (s.utf8ByteSize : Int) > mxl then (s.utf8ByteSize : Int) else mxl)
  | .boolGen c tc fc, .vbool b =>
      if b then .boolGen (wrap64 (c + 1)) (wrap64 (tc + 1)) fc
      else .boolGen (wrap64 (c + 1)) tc (wrap64 (fc + 1))
  | .nullGen c, .vnull => .nullGen (wrap64 (c + 1))
  | g, _ => g

/-- The `for key, val := range mapEntry` loop of `objectStatGenerator.AddEntry`
(stats.go lines 95-101), folded over the association-list embedding of the
entry map. -/
def addObjFields : List (String × StatGen) → List (String × Val) → List (String × StatGen)
  | cs, [] => cs
  | cs, (k, v) :: fs => addObjFields (addObjField cs k v) fs

/-- One iteration of that loop: create the child on first observation of the
key (`newStatGenerator(val)`), then dispatch the value to the child via its
`AddEntry`. -/
def addObjField : List (String × StatGen) → String → Val → List (String × StatGen)
  | [], k, v => [(k, addValue (newStatGenerator v) v)]
  | (k', c) :: cs, k, v =>
      if k' = k then (k', addValue c v) :: cs
      else (k', c) :: addObjField cs k v

/-- The `for i, val := range arrayEntry` loop of `arrayStatGenerator.AddEntry`
(stats.go lines 127-133): when the element index reaches the children length
a new child is appended (`newStatGenerator(val)`), then the element is
dispatched to child i. -/
def addArrElems : List StatGen → List Val → List StatGen
  | cs, [] => cs
  | c :: cs, v :: vs => addValue c v :: addArrElems cs vs
  | [], v :: vs => addValue (newStatGenerator v) v :: addArrElems [] vs

end

/-- Embedding of the `statGenerator.AddEntry` interface method: every
implementation reads only the entry's value. -/
def StatGen.AddEntry (g : StatGen) (e : Entry) : StatGen := addValue g e.Value

mutual

/-- Embedding of the `Stats()` methods of every node variant, in source
order: `objectStatGenerator.Stats` (lines 104-110), `arrayStatGenerator.Stats`
(lines 136-142), `numericStatGenerator.Stats` (lines 186-197),
`stringStatGenerator.Stats` (lines 219-232), `boolStatGenerator.Stats`
(lines 252-261), `nullStatGenerator.Stats` (lines 275-277). -/
def StatGen.Stats : StatGen → SVal
  | .objectGen cs => .sMap (statsChildren cs)
  | .arrayGen cs => .sArr (statsElems cs)
  | .numericGen _ c mn mx =>
      if c = 0 then .sMap [("count", .sInt 0)]
      else .sMap [("count", .sInt c), ("min", .sFloat mn), ("max", .sFloat mx)]
  | .stringGen c mnl mxl =>
      if c = 0 then .sMap [("count", .sInt 0)]
      else .sMap [("count", .sInt c), ("minLength", .sInt mnl), ("maxLength", .sInt mxl)]
  | .boolGen c tc fc =>
      .sMap [("count", .sInt c), ("trueCount", .sInt tc), ("falseCount", .sInt fc)]
  | .nullGen c => .sMap [("count", .sInt c)]

/-- The child-map construction of `objectStatGenerator.Stats`. -/
def statsChildren : List (String × StatGen) → List (String × SVal)
  | [] => []
  | (k, c) :: cs => (k, StatGen.Stats c) :: statsChildren cs

/-- The child-slice construction of `arrayStatGenerator.Stats`. -/
def statsElems : List StatGen → List SVal
  | [] => []
  | c :: cs => StatGen.Stats c :: statsElems cs

end

mutual

/-- Embedding of the `Close()` methods of every node variant: the composite
variants (`objectStatGenerator.Close`, lines 112-119;
`arrayStatGenerator.Close`, lines 144-151) close each child and return the
first error; every scalar variant returns nil. -/
def StatGen.Close : StatGen → Option String
  | .objectGen cs => closeChildren cs
  | .arrayGen cs => closeElems cs
  | .numericGen _ _ _ _ => none
  | .stringGen _ _ _ => none
  | .boolGen _ _ _ => none
  | .nullGen _ => none

/-- The close loop of `objectStatGenerator.Close`. -/
def closeChildren : List (String × StatGen) → Option String
  | [] => none
  | (_, c) :: cs =>
      match StatGen.Close c with
      | some e => some e
      | none => closeChildren cs

/-- The close loop of `arrayStatGenerator.Close`. -/
def closeElems : List StatGen → Option String
  | [] => none
  | c :: cs =>
      match StatGen.Close c with
      | some e => some e
      | none => closeElems cs

end

/-- Model of the wrapped `dsio.EntryReader` the aggregator decorates: the
structure it was built from, the finite sequence of (entry, error) results
its successive `ReadEntry` calls produce, and its `Close` result.  An
exhausted reader keeps returning the end-of-stream error, as the contract
requires. -/
structure EntryReader where
  struct : Structure
  results : List (Entry × Option String)
  closeResult : Option String

/-- The zero `dsio.Entry` value (index 0, empty key, nil value). -/
def zeroEntry : Entry := ⟨0, "", .vnull⟩

/-- The end-of-stream error an exhausted reader returns (`io.EOF`). -/
def eofErr : String := "EOF"

/-- One `ReadEntry` call of the wrapped reader: pop the next scripted result,
or report end of stream. -/
def EntryReader.ReadEntry (r : EntryReader) : EntryReader × Entry × Option String :=
  match r.results with
  | [] => (r, zeroEntry, some eofErr)
  | res :: rest => ({ r with results := rest }, res.1, res.2)

/-- The wrapped reader's `Structure()`. -/
def EntryReader.Structure (r : EntryReader) : Structure := r.struct

/-- Embedding of `BasicStatsGenerator` (stats.go lines 27-30): the wrapped
reader and the statistics root, which starts as the nil interface value
(`none`). -/
structure BasicStatsGenerator where
  r : EntryReader
  stats : Option StatGen

/-- Embedding of `NewBasicStatsGenerator` (stats.go lines 9-23): stores the
reader, leaves the statistics root unset, never errors. -/
def NewBasicStatsGenerator (r : EntryReader) : BasicStatsGenerator :=
  { r := r, stats := none }

/-- Embedding of `BasicStatsGenerator.ReadEntry` (stats.go lines 42-52): read
from the wrapped reader; on error return the pair unchanged; on success seed
the root from the value of the first entry if still unset, then dispatch the
entry into the tree and forward the entry. -/
def BasicStatsGenerator.ReadEntry (g : BasicStatsGenerator) :
    BasicStatsGenerator × Entry × Option String :=
  match g.r.ReadEntry with
  | (r', ent, some e) => ({ g with r := r' }, ent, some e)
  | (r', ent, none) =>
      let s :=
        match g.stats with
        | none => newStatGenerator ent.Value
        | some s => s
      ({ r := r', stats := some (s.AddEntry ent) }, ent, none)

/-- Embedding of `BasicStatsGenerator.Stats` (stats.go lines 32-34): calls
`Stats()` on the root interface value; `none` embeds the panic of calling a
method on the nil interface. -/
def BasicStatsGenerator.Stats (g : BasicStatsGenerator) : Option SVal :=
  g.stats.map StatGen.Stats

/-- Embedding of `BasicStatsGenerator.Structure` (stats.go lines 36-39):
delegates to the wrapped reader. -/
def BasicStatsGenerator.Structure (g : BasicStatsGenerator) : Structure :=
  g.r.Structure

/-- Embedding of `BasicStatsGenerator.Close` (stats.go lines 54-58): calls
`Close()` on the root (discarding its result), then returns the wrapped
reader's `Close` result; `none` embeds the panic of calling a method on the
nil interface. -/
def BasicStatsGenerator.Close (g : BasicStatsGenerator) : Option (Option String) :=
  g.stats.map (fun s =>
    match s.Close with
    | _ => g.r.closeResult)

/-- The object value of the i-th test entry of the scalar-field aggregation
property: field n carries the integer i, field m is always null. -/
def c1Value (j : Int) : Val := .vobj [("n", .vint j), ("m", .vnull)]

set_option maxRecDepth 8192 in
/-- C1: streaming the five object-valued entries with n = 1..5 through the
Statistics Aggregator yields for field n the summary count 5, min 1, max 5;
and a field m that is null in all five entries yields exactly the summary
count 5 (present, and no error anywhere on the stream). -/
theorem c1_five_entries_numeric_and_null_summary
    (st : Structure) (cr : Option String) (i1 i2 i3 i4 i5 : Int)
    (k1 k2 k3 k4 k5 : String) :
    BasicStatsGenerator.Stats
      ((((((NewBasicStatsGenerator
        ⟨st,
         [(⟨i1, k1, c1Value 1⟩, none), (⟨i2, k2, c1Value 2⟩, none),
          (⟨i3, k3, c1Value 3⟩, none), (⟨i4, k4, c1Value 4⟩, none),
          (⟨i5, k5, c1Value 5⟩, none)], cr⟩).ReadEntry).1.ReadEntry).1.ReadEntry).1.ReadEntry).1.ReadEntry).1 =
      some (.sMap [("n", .sMap [("count", .sInt 5), ("min", .sFloat 1), ("max", .sFloat 5)]),
                   ("m", .sMap [("count", .sInt 5)])]) := by
  simp +decide [NewBasicStatsGenerator, BasicStatsGenerator.ReadEntry, EntryReader.ReadEntry,
        BasicStatsGenerator.Stats, StatGen.AddEntry, addValue, addObjFields, addObjField,
        newStatGenerator, StatGen.Stats, statsChildren, statsElems, c1Value, wrap64,
        maxIntF, minIntF]

/-- The six statistics-node variants of the data model. -/
inductive Variant where
  | nullV : Variant
  | numericV : Variant
  | stringV : Variant
  | boolV : Variant
  | objectV : Variant
  | arrayV : Variant
  deriving DecidableEq

/-- The variant of a statistics-node state. -/
def StatGen.variant : StatGen → Variant
  | .nullGen _ => .nullV
  | .numericGen _ _ _ _ => .numericV
  | .stringGen _ _ _ => .stringV
  | .boolGen _ _ _ => .boolV
  | .objectGen _ => .objectV
  | .arrayGen _ => .arrayV

/-- The variant a value's runtime type selects, exactly as the type switch of
`newStatGenerator` maps runtime types to node variants (int, float32 and
float64 all select the numeric variant). -/
def Val.variant : Val → Variant
  | .vnull => .nullV
  | .vbool _ => .boolV
  | .vint _ => .numericV
  | .vfloat32 _ => .numericV
  | .vfloat64 _ => .numericV
  | .vstring _ => .stringV
  | .vobj _ => .objectV
  | .varr _ => .arrayV

/-- Helper: the statistics root after a ReadEntry call, as a function of the
next scripted result of the wrapped reader. -/
theorem readEntry_stats_eq (a : BasicStatsGenerator) :
    (a.ReadEntry).1.stats =
      match a.r.results with
      | (ent, none) :: _ =>
          some (addValue (a.stats.getD (newStatGenerator ent.Value)) ent.Value)
      | _ => a.stats := by
  rcases a with ⟨⟨st, results, cr⟩, stats⟩
  rcases results with _ | ⟨⟨ent, err⟩, rest⟩
  · rfl
  · cases err <;> cases stats <;> rfl

/-- Helper: the entry/error pair a ReadEntry call returns is exactly the next
scripted result of the wrapped reader (or end of stream). -/
theorem readEntry_result_eq (a : BasicStatsGenerator) :
    (a.ReadEntry).2 =
      match a.r.results with
      | [] => (zeroEntry, some eofErr)
      | res :: _ => res := by
  rcases a with ⟨⟨st, results, cr⟩, stats⟩
  rcases results with _ | ⟨⟨ent, err⟩, rest⟩
  · rfl
  · cases err <;> cases stats <;> rfl

/-- Helper: a ReadEntry call consumes exactly the next scripted result and
changes nothing else about the wrapped reader. -/
theorem readEntry_reader_eq (a : BasicStatsGenerator) :
    (a.ReadEntry).1.r = { a.r with results := a.r.results.tail } := by
  rcases a with ⟨⟨st, results, cr⟩, stats⟩
  rcases results with _ | ⟨⟨ent, err⟩, rest⟩
  · rfl
  · cases err <;> cases stats <;> rfl

/-- Helper: the variant of a freshly selected node is the variant of the
seeding value. -/
theorem newStatGenerator_variant (v : Val) : (newStatGenerator v).variant = v.variant := by
  cases v <;> rfl

/-- Helper: AddEntry dispatch never changes the variant of a node. -/
theorem addValue_variant (g : StatGen) (v : Val) : (addValue g v).variant = g.variant := by
  cases g <;> cases v <;> simp only [addValue] <;> first | rfl | (split <;> rfl)

/-- Helper: a value whose primitive kind differs from the variant of the node
leaves the node state unchanged. -/
theorem addValue_ignores_mismatch (g : StatGen) (v : Val)
    (h : v.variant ≠ g.variant) : addValue g v = g := by
  cases g <;> cases v <;> simp only [addValue] <;>
    simp [Val.variant, StatGen.variant] at h

/-- C3: the variant of a node is fixed by the first value it observes and
never changes afterwards; every observed value whose primitive kind differs
from the node's variant leaves the node state entirely unchanged (silently
ignored, no error); the aggregator's root variant is selected exactly once,
by `newStatGenerator` on the first successfully read entry's value, and is
preserved by every later read. -/
theorem c3_variant_fixed_and_mismatches_ignored :
    (∀ v : Val, (newStatGenerator v).variant = v.variant)
    ∧ (∀ (g : StatGen) (v : Val), (addValue g v).variant = g.variant)
    ∧ (∀ (g : StatGen) (v : Val), v.variant ≠ g.variant → addValue g v = g)
    ∧ (∀ (a : BasicStatsGenerator) (ent : Entry) (rest : List (Entry × Option String)),
        a.stats = none → a.r.results = (ent, none) :: rest →
        (a.ReadEntry).1.stats = some (addValue (newStatGenerator ent.Value) ent.Value))
    ∧ (∀ (a : BasicStatsGenerator) (s : StatGen), a.stats = some s →
        ∀ s', (a.ReadEntry).1.stats = some s' → s'.variant = s.variant) := by
  refine ⟨newStatGenerator_variant, addValue_variant, addValue_ignores_mismatch, ?_, ?_⟩
  · intro a ent rest hstats hres
    rw [readEntry_stats_eq, hres, hstats]
    rfl
  · intro a s hstats s' hs'
    rw [readEntry_stats_eq, hstats] at hs'
    rcases hres : a.r.results with _ | ⟨⟨ent, err⟩, rest⟩ <;> rw [hres] at hs'
    · cases Option.some_inj.mp (by simpa using hs')
      rfl
    · cases err with
      | none =>
          have h2 : addValue s ent.Value = s' := Option.some_inj.mp (by simpa using hs')
          rw [← h2]
          exact addValue_variant s ent.Value
      | some e =>
          cases Option.some_inj.mp (by simpa using hs')
          rfl

/-- Witness for C3 at concrete inputs: a numeric root seeded by the integer 1
ignores a string observation unchanged, and a fresh aggregator reading an
entry with value integer 7 seeds its root from that first value. -/
theorem c3_variant_fixed_and_mismatches_ignored_witness :
    addValue (newStatGenerator (Val.vint 1)) (Val.vstring "x")
      = newStatGenerator (Val.vint 1)
    ∧ ((NewBasicStatsGenerator
          ⟨⟨"json", none⟩, [(⟨0, "", Val.vint 7⟩, none)], none⟩).ReadEntry).1.stats
      = some (addValue (newStatGenerator (Val.vint 7)) (Val.vint 7)) := by
  constructor
  · exact (c3_variant_fixed_and_mismatches_ignored.2.2.1)
      (newStatGenerator (Val.vint 1)) (Val.vstring "x")
      (by simp [newStatGenerator, StatGen.variant, Val.variant])
  · exact (c3_variant_fixed_and_mismatches_ignored.2.2.2.1)
      (NewBasicStatsGenerator ⟨⟨"json", none⟩, [(⟨0, "", Val.vint 7⟩, none)], none⟩)
      ⟨0, "", Val.vint 7⟩ [] rfl rfl

/-- C5: when the wrapped reader's ReadEntry returns an error, the aggregator's
ReadEntry returns exactly that entry/error pair, and the statistics root is
left untouched by the call (in particular an unseeded root stays unseeded). -/
theorem c5_error_passthrough_leaves_stats_untouched
    (a : BasicStatsGenerator) (ent : Entry) (err : String)
    (rest : List (Entry × Option String))
    (h : a.r.results = (ent, some err) :: rest) :
    (a.ReadEntry).2 = (ent, some err)
    ∧ (a.ReadEntry).1.stats = a.stats := by
  constructor
  · rw [readEntry_result_eq, h]
  · rw [readEntry_stats_eq, h]

/-- Witness for C5: a fresh aggregator whose wrapped reader immediately
errors forwards the error and stays unseeded. -/
theorem c5_error_passthrough_leaves_stats_untouched_witness :
    ((NewBasicStatsGenerator
        ⟨⟨"json", none⟩, [(⟨0, "", Val.vnull⟩, some "parse failure")], none⟩).ReadEntry).2
      = (⟨0, "", Val.vnull⟩, some "parse failure")
    ∧ ((NewBasicStatsGenerator
        ⟨⟨"json", none⟩, [(⟨0, "", Val.vnull⟩, some "parse failure")], none⟩).ReadEntry).1.stats
      = (NewBasicStatsGenerator
        ⟨⟨"json", none⟩, [(⟨0, "", Val.vnull⟩, some "parse failure")], none⟩).stats :=
  c5_error_passthrough_leaves_stats_untouched
    (NewBasicStatsGenerator ⟨⟨"json", none⟩, [(⟨0, "", Val.vnull⟩, some "parse failure")], none⟩)
    ⟨0, "", Val.vnull⟩ "parse failure" [] rfl

/-- C6: on a successful read the aggregator returns exactly the entry the
wrapped reader produced (index, key and value unmodified), and its Structure
method returns exactly the wrapped reader's Structure. -/
theorem c6_transparent_forwarding
    (a : BasicStatsGenerator) (ent : Entry)
    (rest : List (Entry × Option String))
    (h : a.r.results = (ent, none) :: rest) :
    (a.ReadEntry).2 = (ent, none)
    ∧ (∀ b : BasicStatsGenerator, b.Structure = b.r.Structure) := by
  constructor
  · rw [readEntry_result_eq, h]
  · intro b; rfl

/-- Witness for C6: a concrete successful read forwards the exact entry. -/
theorem c6_transparent_forwarding_witness :
    ((NewBasicStatsGenerator
        ⟨⟨"json", none⟩, [(⟨3, "k", Val.vint 9⟩, none)], none⟩).ReadEntry).2
      = (⟨3, "k", Val.vint 9⟩, none)
    ∧ (∀ b : BasicStatsGenerator, b.Structure = b.r.Structure) :=
  c6_transparent_forwarding
    (NewBasicStatsGenerator ⟨⟨"json", none⟩, [(⟨3, "k", Val.vint 9⟩, none)], none⟩)
    ⟨3, "k", Val.vint 9⟩ [] rfl

/-- C9: on an aggregator through which no entry has been successfully read,
the statistics root is still the nil interface value, so Close and Stats both
fault (modelled as `none`) instead of returning a summary or closing the
wrapped reader; an errored first read leaves the aggregator in the same
faulting state. -/
theorem c9_close_stats_fault_before_first_successful_read (r : EntryReader) :
    (NewBasicStatsGenerator r).stats = none
    ∧ (NewBasicStatsGenerator r).Close = none
    ∧ (NewBasicStatsGenerator r).Stats = none
    ∧ (∀ ent err rest, r.results = (ent, some err) :: rest →
        ((NewBasicStatsGenerator r).ReadEntry).1.Close = none
        ∧ ((NewBasicStatsGenerator r).ReadEntry).1.Stats = none) := by
  refine ⟨rfl, rfl, rfl, ?_⟩
  intro ent err rest h
  have hs : ((NewBasicStatsGenerator r).ReadEntry).1.stats = none := by
    rw [readEntry_stats_eq]
    show (match r.results with
      | (ent, none) :: _ =>
          some (addValue ((none : Option StatGen).getD (newStatGenerator ent.Value)) ent.Value)
      | _ => none) = none
    rw [h]
  constructor
  · show (((NewBasicStatsGenerator r).ReadEntry).1.stats.map _) = none
    rw [hs]; rfl
  · show (((NewBasicStatsGenerator r).ReadEntry).1.stats.map _) = none
    rw [hs]; rfl

/-- Witness for C9: a concrete aggregator over a one-error stream faults on
Close and Stats both before and after the errored read. -/
theorem c9_close_stats_fault_before_first_successful_read_witness :
    (NewBasicStatsGenerator ⟨⟨"json", none⟩, [(⟨0, "", Val.vnull⟩, some "bad row")], none⟩).Close
      = none
    ∧ ((NewBasicStatsGenerator
        ⟨⟨"json", none⟩, [(⟨0, "", Val.vnull⟩, some "bad row")], none⟩).ReadEntry).1.Stats
      = none :=
  ⟨(c9_close_stats_fault_before_first_successful_read
      ⟨⟨"json", none⟩, [(⟨0, "", Val.vnull⟩, some "bad row")], none⟩).2.1,
   ((c9_close_stats_fault_before_first_successful_read
      ⟨⟨"json", none⟩, [(⟨0, "", Val.vnull⟩, some "bad row")], none⟩).2.2.2
      ⟨0, "", Val.vnull⟩ "bad row" [] rfl).2⟩

/-- Modelled from the spec: the recognized format enumeration of the Format
Dispatcher (spec enumeration delimited-text, json, compact-binary, native;
concrete format strings csv, json, cbor, native as used by the dsio tests). -/
def recognizedFormats : List String := ["csv", "json", "cbor", "native"]

/-- Modelled from the spec: a schema is well formed for the dispatcher when it
is present and declares an array- or object-typed top level. -/
def validSchema : Option Val → Bool
  | some (.vobj fs) =>
      match fs.lookup "type" with
      | some (.vstring t) => t = "array" || t = "object"
      | _ => false
  | _ => false

/-- Modelled from the spec: the result of constructing an Entry Reader, the
structure it was built from and the input stream, which construction leaves
untouched. -/
structure EntryReaderHandle where
  st : Structure
  stream : List Nat

/-- Modelled from the spec: the result of constructing an Entry Writer, the
structure it was built from and the byte sink, which construction leaves
untouched. -/
structure EntryWriterHandle where
  st : Structure
  sink : List Nat

/-- Modelled from the spec: the Format Dispatcher function `dsio.NewEntryReader`
is not among the sources under src/ (only its test, TestNewEntryReader in the
dsio test file, is).  Per spec section 4.2 it fails with the error
"structure must have a data format" when the format field is empty, fails when
the format is not one of the recognized enumeration or the schema is absent or
malformed, and otherwise constructs the codec for that format before any byte
of the stream is consumed. -/
def NewEntryReader (st : Structure) (stream : List Nat) : Except String EntryReaderHandle :=
  if st.Format = "" then .error "structure must have a data format"
  else if recognizedFormats.contains st.Format then
    if validSchema st.Schema then .ok ⟨st, stream⟩
    else .error "structure must have a schema"
  else .error ("unsupported format: " ++ st.Format)

/-- Modelled from the spec: the Format Dispatcher function `dsio.NewEntryWriter`
is not among the sources under src/ (only its test, TestNewEntryWriter, is).
Same construction-time checks as `NewEntryReader`, before any byte is written
to the sink. -/
def NewEntryWriter (st : Structure) (sink : List Nat) : Except String EntryWriterHandle :=
  if st.Format = "" then .error "structure must have a data format"
  else if recognizedFormats.contains st.Format then
    if validSchema st.Schema then .ok ⟨st, sink⟩
    else .error "structure must have a schema"
  else .error ("unsupported format: " ++ st.Format)

/-- C4: for every input stream (the empty one included), construction of a
reader or writer from a structure with an empty format fails with exactly the
error "structure must have a data format"; construction with a recognized
format (csv, json, cbor) and a valid schema succeeds, and the handle holds
the stream with no byte consumed or produced. -/
theorem c4_construction_checks_format_before_io :
    (∀ (sch : Option Val) (s : List Nat),
      NewEntryReader ⟨"", sch⟩ s = Except.error "structure must have a data format"
      ∧ NewEntryWriter ⟨"", sch⟩ s = Except.error "structure must have a data format")
    ∧ (∀ (f : String) (s : List Nat) (sch : Val), f ∈ ["csv", "json", "cbor"] →
        validSchema (some sch) = true →
        (∃ h, NewEntryReader ⟨f, some sch⟩ s = .ok h ∧ h.stream = s)
        ∧ (∃ h, NewEntryWriter ⟨f, some sch⟩ s = .ok h ∧ h.sink = s)) := by
  constructor
  · intro sch s
    constructor <;> rfl
  · intro f s sch hf hsch
    have hf2 : f = "csv" ∨ f = "json" ∨ f = "cbor" := by simpa using hf
    have hmem : f ∈ recognizedFormats := by
      rcases hf2 with rfl | rfl | rfl <;> simp [recognizedFormats]
    have hne : ¬(f = "") := by
      rcases hf2 with rfl | rfl | rfl <;> simp
    constructor
    · exact ⟨⟨⟨f, some sch⟩, s⟩, by simp [NewEntryReader, hne, hmem, hsch], rfl⟩
    · exact ⟨⟨⟨f, some sch⟩, s⟩, by simp [NewEntryWriter, hne, hmem, hsch], rfl⟩

/-- Witness for C4: with the base array schema, an empty-format structure
fails over the empty stream and the json format succeeds. -/
theorem c4_construction_checks_format_before_io_witness :
    (NewEntryReader ⟨"", some BaseSchemaArray⟩ []
        = Except.error "structure must have a data format"
      ∧ NewEntryWriter ⟨"", some BaseSchemaArray⟩ []
        = Except.error "structure must have a data format")
    ∧ ((∃ h, NewEntryReader ⟨"json", some BaseSchemaArray⟩ [] = .ok h ∧ h.stream = [])
      ∧ (∃ h, NewEntryWriter ⟨"json", some BaseSchemaArray⟩ [] = .ok h ∧ h.sink = [])) :=
  ⟨c4_construction_checks_format_before_io.1 (some BaseSchemaArray) [],
   c4_construction_checks_format_before_io.2 "json" [] BaseSchemaArray
     (by simp) (by rfl)⟩

/-- C2 counterexample: a boolean leaf whose count equals 0 does not report
count alone; its Stats is the full three-field summary, because
`boolStatGenerator.Stats` has no count-zero special case. -/
theorem c2_counterexample_bool_count_zero_full_summary :
    StatGen.Stats (.boolGen 0 0 0)
      = .sMap [("count", .sInt 0), ("trueCount", .sInt 0), ("falseCount", .sInt 0)]
    ∧ StatGen.Stats (.boolGen 0 0 0) ≠ .sMap [("count", .sInt 0)] := by
  constructor
  · simp [StatGen.Stats]
  · simp [StatGen.Stats]

/-- C2 amended: numeric and string leaves report count alone when their count
equals 0 and else their full type-specific summary; a boolean leaf always
reports count, trueCount and falseCount, also at count 0; a null leaf always
reports count alone. -/
theorem c2_leaf_stats_shapes :
    (∀ (t : String) (c : Int) (mn mx : Rat), c = 0 →
        StatGen.Stats (.numericGen t c mn mx) = .sMap [("count", .sInt 0)])
    ∧ (∀ (t : String) (c : Int) (mn mx : Rat), c ≠ 0 →
        StatGen.Stats (.numericGen t c mn mx)
          = .sMap [("count", .sInt c), ("min", .sFloat mn), ("max", .sFloat mx)])
    ∧ (∀ (c mnl mxl : Int), c = 0 →
        StatGen.Stats (.stringGen c mnl mxl) = .sMap [("count", .sInt 0)])
    ∧ (∀ (c mnl mxl : Int), c ≠ 0 →
        StatGen.Stats (.stringGen c mnl mxl)
          = .sMap [("count", .sInt c), ("minLength", .sInt mnl), ("maxLength", .sInt mxl)])
    ∧ (∀ (c tc fc : Int),
        StatGen.Stats (.boolGen c tc fc)
          = .sMap [("count", .sInt c), ("trueCount", .sInt tc), ("falseCount", .sInt fc)])
    ∧ (∀ c : Int, StatGen.Stats (.nullGen c) = .sMap [("count", .sInt c)]) := by
  refine ⟨?_, ?_, ?_, ?_, ?_, ?_⟩
  · intro t c mn mx h; simp [StatGen.Stats, h]
  · intro t c mn mx h; simp [StatGen.Stats, h]
  · intro c mnl mxl h; simp [StatGen.Stats, h]
  · intro c mnl mxl h; simp [StatGen.Stats, h]
  · intro c tc fc; simp [StatGen.Stats]
  · intro c; simp [StatGen.Stats]

/-- Witness for C2 at concrete leaves: a count-zero numeric leaf and a
count-five string leaf. -/
theorem c2_leaf_stats_shapes_witness :
    StatGen.Stats (.numericGen "integer" 0 3 7) = .sMap [("count", .sInt 0)]
    ∧ StatGen.Stats (.stringGen 5 1 5)
      = .sMap [("count", .sInt 5), ("minLength", .sInt 1), ("maxLength", .sInt 5)] :=
  ⟨c2_leaf_stats_shapes.1 "integer" 0 3 7 rfl,
   c2_leaf_stats_shapes.2.2.2.1 5 1 5 (by decide)⟩

/-- Helper: closing any statistics node returns nil; proved over the whole
tree by the functional induction principle of the mutual close functions. -/
theorem statGen_Close_eq_none (s : StatGen) : s.Close = none := by
  refine StatGen.Close.induct (fun s => s.Close = none)
    (fun cs => closeElems cs = none) (fun cs => closeChildren cs = none)
    ?_ ?_ ?_ ?_ ?_ ?_ ?_ ?_ ?_ ?_ ?_ ?_ s
  · intro cs h; simp [StatGen.Close, h]
  · intro cs h; simp [StatGen.Close, h]
  · intro t c mn mx; simp [StatGen.Close]
  · intro c mnl mxl; simp [StatGen.Close]
  · intro c tc fc; simp [StatGen.Close]
  · intro c; simp [StatGen.Close]
  · simp [closeChildren]
  · intro k c cs e hc h1; simp_all
  · intro k c cs hc h1 h2; simp_all [closeChildren]
  · simp [closeElems]
  · intro c cs e hc h1; simp_all
  · intro c cs hc h1 h2; simp_all [closeElems]

/-- C8: on a seeded aggregator, Close closes every node of the statistics
tree recursively, each returning nil for every current variant, and then
closes the wrapped reader, returning exactly the wrapped reader's Close
result. -/
theorem c8_close_recurses_then_closes_reader
    (a : BasicStatsGenerator) (s : StatGen) (h : a.stats = some s) :
    (∀ g : StatGen, g.Close = none) ∧ a.Close = some a.r.closeResult := by
  refine ⟨statGen_Close_eq_none, ?_⟩
  simp [BasicStatsGenerator.Close, h]

/-- Witness for C8: an aggregator seeded with an object node over one numeric
child, whose wrapped reader closes with nil. -/
theorem c8_close_recurses_then_closes_reader_witness :
    (∀ g : StatGen, g.Close = none)
    ∧ BasicStatsGenerator.Close
        ⟨⟨⟨"json", none⟩, [], none⟩,
         some (.objectGen [("n", .numericGen "integer" 1 1 1)])⟩
      = some none :=
  c8_close_recurses_then_closes_reader
    ⟨⟨⟨"json", none⟩, [], none⟩, some (.objectGen [("n", .numericGen "integer" 1 1 1)])⟩
    (.objectGen [("n", .numericGen "integer" 1 1 1)]) rfl

/-- C10: a numeric node, whatever seeded it (the typ field is arbitrary),
accepts int, float32 and float64 values interchangeably: each increments the
count and updates min and max through the float64 view of the value; every
value of a non-numeric runtime type leaves the node unchanged. -/
theorem c10_numeric_node_accepts_all_numeric_types :
    (∀ (t : String) (c : Int) (mn mx : Rat) (n : Int),
        addValue (.numericGen t c mn mx) (.vint n)
          = .numericGen t (wrap64 (c + 1)) (min mn (n : Rat)) (max mx (n : Rat)))
    ∧ (∀ (t : String) (c : Int) (mn mx x : Rat),
        addValue (.numericGen t c mn mx) (.vfloat32 x)
          = .numericGen t (wrap64 (c + 1)) (min mn x) (max mx x))
    ∧ (∀ (t : String) (c : Int) (mn mx x : Rat),
        addValue (.numericGen t c mn mx) (.vfloat64 x)
          = .numericGen t (wrap64 (c + 1)) (min mn x) (max mx x))
    ∧ (∀ (t : String) (c : Int) (mn mx : Rat) (v : Val),
        v.variant ≠ Variant.numericV →
        addValue (.numericGen t c mn mx) v = .numericGen t c mn mx) := by
  have hmin : ∀ x mn : Rat, (if x < mn then x else mn) = min mn x := by
    intro x mn
    rcases le_total mn x with h | h
    · rw [min_eq_left h, if_neg (not_lt.mpr h)]
    · rw [min_eq_right h]
      by_cases hx : x < mn
      · rw [if_pos hx]
      · rw [if_neg hx]
        exact le_antisymm (not_lt.mp hx) h
  have hmax : ∀ x mx : Rat, (if x > mx then x else mx) = max mx x := by
    intro x mx
    rcases le_total x mx with h | h
    · rw [max_eq_left h, if_neg (not_lt.mpr h)]
    · rw [max_eq_right h]
      by_cases hx : mx < x
      · rw [if_pos hx]
      · rw [if_neg hx]
        exact le_antisymm h (not_lt.mp hx)
  refine ⟨?_, ?_, ?_, ?_⟩
  · intro t c mn mx n; simp only [addValue, hmin, hmax]
  · intro t c mn mx x; simp only [addValue, hmin, hmax]
  · intro t c mn mx x; simp only [addValue, hmin, hmax]
  · intro t c mn mx v hv
    exact addValue_ignores_mismatch _ v (by simpa [StatGen.variant] using hv)

/-- Witness for C10: the integer 3 then the float 1.5 both land in one
integer-seeded node; a string leaves it unchanged. -/
theorem c10_numeric_node_accepts_all_numeric_types_witness :
    addValue (.numericGen "integer" 1 3 3) (.vfloat64 (3 / 2))
      = .numericGen "integer" (wrap64 (1 + 1)) (min 3 (3 / 2 : Rat)) (max 3 (3 / 2 : Rat))
    ∧ addValue (.numericGen "integer" 1 3 3) (.vstring "x")
      = .numericGen "integer" 1 3 3 :=
  ⟨c10_numeric_node_accepts_all_numeric_types.2.2.1 "integer" 1 3 3 (3 / 2),
   c10_numeric_node_accepts_all_numeric_types.2.2.2 "integer" 1 3 3 (.vstring "x")
     (by simp [Val.variant])⟩

/-- Helper: after one field observation on an object node, looking up any key
gives the updated (or freshly created and updated) child for the observed key
and the untouched child for every other key. -/
theorem addObjField_lookup (cs : List (String × StatGen)) (k : String) (v : Val)
    (k' : String) :
    (addObjField cs k v).lookup k' =
      if k' = k then some (addValue ((cs.lookup k).getD (newStatGenerator v)) v)
      else cs.lookup k' := by
  induction cs with
  | nil =>
      by_cases h : k' = k
      · simp [addObjField, List.lookup, beq_iff_eq, h]
      · simp [addObjField, List.lookup, beq_eq_false_iff_ne.mpr h, h]
  | cons p rest ih =>
      obtain ⟨k0, c0⟩ := p
      by_cases h0 : k0 = k
      · subst h0
        by_cases h : k' = k0
        · simp [addObjField, List.lookup, beq_iff_eq, h]
        · simp [addObjField, List.lookup, beq_eq_false_iff_ne.mpr h, h]
      · by_cases h : k' = k0
        · subst h
          have hk : ¬(k' = k) := h0
          have hb2 : (k == k') = false := beq_eq_false_iff_ne.mpr (fun hh => h0 hh.symm)
          simp [addObjField, h0, List.lookup, beq_iff_eq, hk, hb2]
        · have hb : (k' == k0) = false := beq_eq_false_iff_ne.mpr h
          have hb2 : (k == k0) = false := beq_eq_false_iff_ne.mpr (fun hh => h0 hh.symm)
          simp [addObjField, h0, List.lookup, hb, hb2, ih]

/-- Helper: one field observation on an object node appends the key exactly
when it had not been observed before, and otherwise leaves the key set
unchanged. -/
theorem addObjField_keys (cs : List (String × StatGen)) (k : String) (v : Val) :
    (addObjField cs k v).map Prod.fst =
      if (cs.lookup k).isSome then cs.map Prod.fst else cs.map Prod.fst ++ [k] := by
  induction cs with
  | nil => simp [addObjField, List.lookup]
  | cons p rest ih =>
      obtain ⟨k0, c0⟩ := p
      by_cases h0 : k0 = k
      · subst h0
        simp [addObjField, List.lookup, beq_iff_eq]
      · have hb2 : (k == k0) = false := beq_eq_false_iff_ne.mpr (fun hh => h0 hh.symm)
        have ha : addObjField ((k0, c0) :: rest) k v = (k0, c0) :: addObjField rest k v := by
          simp [addObjField, h0]
        have hl : List.lookup k ((k0, c0) :: rest) = List.lookup k rest := by
          simp [List.lookup, hb2]
        rw [ha, hl, List.map_cons, ih]
        by_cases hs : (List.lookup k rest).isSome <;> simp [hs]

/-- Helper: an array observation extends the child sequence exactly to the
larger of the previous child count and the observed element count. -/
theorem addArrElems_length (cs : List StatGen) (vs : List Val) :
    (addArrElems cs vs).length = max cs.length vs.length := by
  induction vs generalizing cs with
  | nil => simp [addArrElems]
  | cons v vs ih =>
      cases cs with
      | nil => simp [addArrElems, ih]
      | cons c cs => simp [addArrElems, ih, Nat.succ_max_succ]

/-- Helper: after an array observation, child i is the previous child i (or a
fresh node when the sequence grew to include i) updated with element i, and
children beyond the observed elements are untouched. -/
theorem addArrElems_getElem (cs : List StatGen) (vs : List Val) (i : Nat) :
    (addArrElems cs vs)[i]? =
      match vs[i]? with
      | some v => some (addValue (cs[i]?.getD (newStatGenerator v)) v)
      | none => cs[i]? := by
  induction vs generalizing cs i with
  | nil => simp [addArrElems]
  | cons v vs ih =>
      cases cs with
      | nil =>
          cases i with
          | zero => simp [addArrElems]
          | succ j => simpa [addArrElems] using ih [] j
      | cons c cs =>
          cases i with
          | zero => simp [addArrElems]
          | succ j => simpa [addArrElems] using ih cs j

/-- C7: an object node fans an observed map value out per key, creating the
child on the key's first observation and thereafter dispatching to the
existing child, leaving all other children untouched; an array node fans an
observed sequence out per position, extending the ordered child sequence
exactly when the sequence is longer than the previously seen children, and
dispatching element i to child i. -/
theorem c7_object_and_array_child_dispatch :
    (∀ (cs : List (String × StatGen)) (fs : List (String × Val)),
        addValue (.objectGen cs) (.vobj fs) = .objectGen (addObjFields cs fs))
    ∧ (∀ (cs : List (String × StatGen)) (k : String) (v : Val) (fs : List (String × Val)),
        addObjFields cs ((k, v) :: fs) = addObjFields (addObjField cs k v) fs)
    ∧ (∀ (cs : List (String × StatGen)) (k : String) (v : Val) (k' : String),
        (addObjField cs k v).lookup k' =
          if k' = k then some (addValue ((cs.lookup k).getD (newStatGenerator v)) v)
          else cs.lookup k')
    ∧ (∀ (cs : List (String × StatGen)) (k : String) (v : Val),
        (addObjField cs k v).map Prod.fst =
          if (cs.lookup k).isSome then cs.map Prod.fst else cs.map Prod.fst ++ [k])
    ∧ (∀ (cs : List StatGen) (vs : List Val),
        addValue (.arrayGen cs) (.varr vs) = .arrayGen (addArrElems cs vs))
    ∧ (∀ (cs : List StatGen) (vs : List Val),
        (addArrElems cs vs).length = max cs.length vs.length)
    ∧ (∀ (cs : List StatGen) (vs : List Val) (i : Nat),
        (addArrElems cs vs)[i]? =
          match vs[i]? with
          | some v => some (addValue (cs[i]?.getD (newStatGenerator v)) v)
          | none => cs[i]?) := by
  refine ⟨?_, ?_, addObjField_lookup, addObjField_keys, ?_, addArrElems_length,
    addArrElems_getElem⟩
  · intro cs fs; simp [addValue]
  · intro cs k v fs; simp [addObjFields]
  · intro cs vs; simp [addValue]
